import Mathlib

/-!
Shallow embedding of the GearUp vehicle-maintenance application (src/main.py)
and proofs about its maintenance-due computation, parts recommendation,
wiki-summary cache and vehicle-registration form handler.

Modelling conventions:
* Python dates are modelled as day ordinals in ℤ; subtracting two dates gives
  the number of days between them, matching `(d1 - d2).days`.
* Python floats are modelled as exact rationals.  Every float computation the
  embedded code performs divides or multiplies integers from the fixed tables
  below by one of the constants 1.2, 1.1, 0.9, 0.8, 1.0, 1.5, 1.4 or 30.44;
  for all values reachable from the tables the double-precision results round
  to the same integers and compare the same way as the exact rationals, so the
  rational model is faithful.
* `int(x)` on a non-negative quantity is truncation towards zero, `pyint`.
* A Python dict keyed by strings is modelled as `String → Option _` (for the
  fixed tables) or as an association list (for the mutable cache).
* Optional dict entries read with `.get(key, default)` are `Option` fields.
-/

namespace GearUp

/-- Python `int()` applied to a rational: truncation toward zero. -/
def pyint (q : ℚ) : ℤ := if 0 ≤ q then ⌊q⌋ else ⌈q⌉

/-- The constant `30.44` from `calculate_service_due` (days per month). -/
def MONTH_DAYS : ℚ := 3044 / 100

/-- One entry of `USAGE_MULTIPLIERS` in src/main.py. -/
structure Multiplier where
  service_frequency : ℚ
  parts_wear : ℚ
deriving DecidableEq

/-- `USAGE_MULTIPLIERS` from src/main.py (1.2 = 12/10 etc. as exact rationals). -/
def USAGE_MULTIPLIERS : String → Option Multiplier
  | "City" => some { service_frequency := 12/10, parts_wear := 11/10 }
  | "Highway" => some { service_frequency := 9/10, parts_wear := 8/10 }
  | "Mixed" => some { service_frequency := 1, parts_wear := 1 }
  | "Commercial" => some { service_frequency := 15/10, parts_wear := 14/10 }
  | _ => none

/-- One entry of `SERVICE_SCHEDULES` in src/main.py (cost_range split in two). -/
structure ServiceInfo where
  interval_months : ℤ
  interval_km : ℤ
  cost_lo : ℤ
  cost_hi : ℤ
deriving DecidableEq

/-- The `'Car'` table of `SERVICE_SCHEDULES`. -/
def carSchedule : List (String × ServiceInfo) :=
  [("General Service", ⟨6, 10000, 2500, 5000⟩),
   ("Oil Change", ⟨12, 10000, 2000, 3500⟩),
   ("Brake Service", ⟨24, 20000, 3000, 8000⟩),
   ("Major Service", ⟨24, 40000, 8000, 15000⟩),
   ("Tire Replacement", ⟨48, 50000, 18000, 40000⟩)]

/-- The `'Bike'` table of `SERVICE_SCHEDULES`. -/
def bikeSchedule : List (String × ServiceInfo) :=
  [("General Service", ⟨3, 3000, 800, 1500⟩),
   ("Oil Change", ⟨6, 4000, 500, 900⟩),
   ("Chain Service", ⟨12, 15000, 1500, 3000⟩),
   ("Brake Pads", ⟨12, 10000, 700, 1500⟩),
   ("Tire Replacement", ⟨36, 30000, 4000, 8000⟩)]

/-- The `'Scooter'` table of `SERVICE_SCHEDULES`. -/
def scooterSchedule : List (String × ServiceInfo) :=
  [("General Service", ⟨4, 4000, 700, 1200⟩),
   ("Oil Change", ⟨6, 6000, 400, 700⟩),
   ("Brake Service", ⟨12, 10000, 600, 1200⟩),
   ("CVT & Transmission Service", ⟨24, 20000, 1000, 2500⟩),
   ("Tire Replacement", ⟨36, 25000, 3000, 6000⟩)]

/-- `SERVICE_SCHEDULES` from src/main.py as a partial map on type names. -/
def SERVICE_SCHEDULES : String → Option (List (String × ServiceInfo))
  | "Car" => some carSchedule
  | "Bike" => some bikeSchedule
  | "Scooter" => some scooterSchedule
  | _ => none

/-- `SERVICE_PARTS` from src/main.py. -/
def SERVICE_PARTS : String → Option (List (String × List String))
  | "Car" => some
      [("General Service", ["Engine Oil", "Oil Filter", "Air Filter", "Coolant", "Wiper Fluid"]),
       ("Oil Change", ["Engine Oil", "Oil Filter"]),
       ("Brake Service", ["Brake Pads", "Brake Fluid", "Brake Discs"]),
       ("Major Service", ["Engine Oil", "Oil Filter", "Air Filter", "Spark Plugs", "Fuel Filter", "Coolant"]),
       ("Tire Replacement", ["Tires", "Wheel Alignment", "Wheel Balancing"])]
  | "Bike" => some
      [("General Service", ["Engine Oil", "Air Filter", "Chain Lubrication", "Brake Check"]),
       ("Oil Change", ["Engine Oil", "Oil Filter"]),
       ("Chain Service", ["Chain", "Front Sprocket", "Rear Sprocket"]),
       ("Brake Pads", ["Front Brake Pads", "Rear Brake Pads", "Brake Fluid"]),
       ("Tire Replacement", ["Front Tire", "Rear Tire", "Tube"])]
  | "Scooter" => some
      [("General Service", ["Engine Oil", "Air Filter", "Spark Plug", "Brake Check"]),
       ("Oil Change", ["Engine Oil"]),
       ("Brake Service", ["Brake Pads", "Brake Shoes", "Brake Fluid"]),
       ("CVT & Transmission Service", ["CVT Belt", "Rollers", "Gear Oil"]),
       ("Tire Replacement", ["Front Tire", "Rear Tire", "Tube"])]
  | _ => none

/-- A vehicle record as built by the Add Vehicle form, with the optional
per-service bookkeeping keys (`last_service_km_<name>`, `last_service_date_<name>`)
and the optional `initial_km` key read via `dict.get`. -/
structure Vehicle where
  vtype : String
  brand : String
  model : String
  year : ℤ
  purchase_date : ℤ
  price : ℤ
  current_km : ℤ
  initial_km : Option ℤ
  usage : String
  last_service_km : String → Option ℤ
  last_service_date : String → Option ℤ

/-- `USAGE_MULTIPLIERS.get(usage, USAGE_MULTIPLIERS['Mixed'])`; the `'Mixed'`
entry is `{service_frequency: 1.0, parts_wear: 1.0}`. -/
def effectiveMultiplier (usage : String) : Multiplier :=
  (USAGE_MULTIPLIERS usage).getD { service_frequency := 1, parts_wear := 1 }

/-- `int(service_info['interval_months'] / multiplier['service_frequency'])`. -/
def adjusted_interval_months (usage : String) (info : ServiceInfo) : ℤ :=
  pyint ((info.interval_months : ℚ) / (effectiveMultiplier usage).service_frequency)

/-- `int(service_info['interval_km'] / multiplier['parts_wear'])`. -/
def adjusted_interval_km (usage : String) (info : ServiceInfo) : ℤ :=
  pyint ((info.interval_km : ℚ) / (effectiveMultiplier usage).parts_wear)

/-- `vehicle_data.get(f'last_service_km_{service_name}', vehicle_data.get('initial_km', 0))`. -/
def last_service_km_of (v : Vehicle) (name : String) : ℤ :=
  (v.last_service_km name).getD (v.initial_km.getD 0)

/-- `vehicle_data.get(f'last_service_date_{service_name}', purchase_date)`. -/
def last_service_date_of (v : Vehicle) (name : String) : ℤ :=
  (v.last_service_date name).getD v.purchase_date

/-- `time_due = (adjusted_interval_months > 0 and months_since_last >= adjusted_interval_months)`
where `months_since_last = (current_date - last_time_service_date).days / 30.44`. -/
def time_due (d : ℤ) (v : Vehicle) (name : String) (info : ServiceInfo) : Bool :=
  decide (0 < adjusted_interval_months v.usage info) &&
  decide ((adjusted_interval_months v.usage info : ℚ) ≤
      ((d - last_service_date_of v name : ℤ) : ℚ) / MONTH_DAYS)

/-- `km_due = (adjusted_interval_km > 0 and km_since_last >= adjusted_interval_km)`. -/
def km_due (v : Vehicle) (name : String) (info : ServiceInfo) : Bool :=
  decide (0 < adjusted_interval_km v.usage info) &&
  decide (adjusted_interval_km v.usage info ≤ v.current_km - last_service_km_of v name)

/-- One entry of the list returned by `calculate_service_due`. -/
structure ServiceDue where
  service : String
  due_reason : String
  days_overdue : ℤ
  cost_lo : ℤ
  cost_hi : ℤ
  parts : List String
deriving DecidableEq

/-- `SERVICE_PARTS[vehicle_type].get(service_name, [])` (only evaluated for
vehicle types present in the tables). -/
def partsFor (vtype name : String) : List String :=
  match SERVICE_PARTS vtype with
  | some l => (l.lookup name).getD []
  | none => []

/-- The body of the loop in `calculate_service_due`: the entry appended for one
`(service_name, service_info)` pair, or `none` when the service is not due.
`date + timedelta(days=f)` keeps only whole days, hence the floor in
`days_overdue`. -/
def serviceEntry (d : ℤ) (v : Vehicle) (p : String × ServiceInfo) : Option ServiceDue :=
  if time_due d v p.1 p.2 || km_due v p.1 p.2 then
    some { service := p.1,
           due_reason := String.intercalate " & "
             ((if time_due d v p.1 p.2 then ["Time Interval"] else []) ++
              (if km_due v p.1 p.2 then ["Kilometer Reading"] else [])),
           days_overdue := max 0 (pyint ((if time_due d v p.1 p.2 then
             d - (last_service_date_of v p.1 +
               ⌊(adjusted_interval_months v.usage p.2 : ℚ) * MONTH_DAYS⌋) else 0 : ℤ) : ℚ)),
           cost_lo := p.2.cost_lo, cost_hi := p.2.cost_hi,
           parts := partsFor v.vtype p.1 }
  else none

/-- `calculate_service_due` from src/main.py, with the current date passed
explicitly (the Python code reads `datetime.date.today()`). -/
def calculate_service_due (d : ℤ) (v : Vehicle) : List ServiceDue :=
  match SERVICE_SCHEDULES v.vtype with
  | none => []
  | some sched => sched.filterMap (serviceEntry d v)

/-- The `recommended_parts` list built by `get_recommended_parts` before
`sorted(list(set(...)))` is applied, rule by rule in source order. -/
def rawRecommendedParts (v : Vehicle) : List String :=
  (if 50000 < v.current_km ∧ v.current_km ≤ 80000 then ["Brake Pads", "Tires"] else []) ++
  (if 80000 < v.current_km then ["Spark Plugs", "Suspension Components"] else []) ++
  (if v.usage = "City" then ["Brake Pads", "Air Filter"]
   else if v.usage = "Commercial" then
     ["Engine Oil", "Brake Pads", "Suspension Components", "Tires"]
   else []) ++
  (if v.vtype = "Car" then
     (if 80000 < v.current_km then ["Timing Belt"] else []) ++
     (if 100000 < v.current_km then ["Water Pump"] else []) ++
     (if v.usage = "City" then ["Clutch Assembly"] else [])
   else if v.vtype = "Bike" then
     (if v.usage = "City" then ["Clutch Plates"] else [])
   else if v.vtype = "Scooter" then
     (if 20000 < v.current_km ∧ v.current_km ≤ 40000 then ["CVT Belt"] else [])
   else [])

/-- `get_recommended_parts` from src/main.py: `sorted(list(set(recommended_parts)))`.
Python's `set` deduplicates and `sorted` orders lexicographically; sorting the
deduplicated list with the string order yields the same (unique) sorted list. -/
def get_recommended_parts (v : Vehicle) : List String :=
  (rawRecommendedParts v).dedup.mergeSort (fun a b : String => decide (a ≤ b))

/-- The selection rules of `get_recommended_parts` as stated in the spec:
which parts the kilometer and usage rules pick for a vehicle. -/
def specSelected (v : Vehicle) (p : String) : Prop :=
  ((p = "Brake Pads" ∨ p = "Tires") ∧ 50000 < v.current_km ∧ v.current_km ≤ 80000) ∨
  ((p = "Spark Plugs" ∨ p = "Suspension Components") ∧ 80000 < v.current_km) ∨
  (v.usage = "City" ∧ (p = "Brake Pads" ∨ p = "Air Filter")) ∨
  (v.usage = "City" ∧ v.vtype = "Car" ∧ p = "Clutch Assembly") ∨
  (v.usage = "City" ∧ v.vtype = "Bike" ∧ p = "Clutch Plates") ∨
  (v.usage = "Commercial" ∧
    (p = "Engine Oil" ∨ p = "Brake Pads" ∨ p = "Suspension Components" ∨ p = "Tires")) ∨
  (v.vtype = "Car" ∧ 80000 < v.current_km ∧ p = "Timing Belt") ∨
  (v.vtype = "Car" ∧ 100000 < v.current_km ∧ p = "Water Pump") ∨
  (v.vtype = "Scooter" ∧ 20000 < v.current_km ∧ v.current_km ≤ 40000 ∧ p = "CVT Belt")

/-! ### The wiki summary cache (`get_wikimedia_summary` and `parts_cache`) -/

/-- The outcome of the HTTP request in `get_wikimedia_summary`: either a
network exception, or a parsed response giving the page id and the optional
`extract` field of the page. -/
inductive NetResult where
  | err (msg : String)
  | page (pageId : String) (extract : Option String)
deriving DecidableEq

/-- Python `str.strip()` whitespace set (the ASCII part; titles and extracts
here are ASCII). -/
def isPySpace (c : Char) : Bool :=
  c == ' ' || c == '\t' || c == '\n' || c == '\r' || c == '\x0b' || c == '\x0c'

/-- `re.sub(r'\n+', '\n', s)`: collapse every run of newlines to one. -/
def squeezeNewlines : List Char → List Char
  | [] => []
  | [c] => [c]
  | c :: d :: rest =>
      if c = '\n' ∧ d = '\n' then squeezeNewlines (d :: rest)
      else c :: squeezeNewlines (d :: rest)

/-- `s.strip()`: remove leading and trailing whitespace. -/
def pyStrip (l : List Char) : List Char :=
  ((l.dropWhile isPySpace).reverse.dropWhile isPySpace).reverse

/-- `re.sub(r'\n+', '\n', summary).strip()` from `get_wikimedia_summary`. -/
def cleanSummary (s : String) : String :=
  String.mk (pyStrip (squeezeNewlines s.data))

/-- The result of one call to `get_wikimedia_summary`: the returned string,
the state of `st.session_state.parts_cache` afterwards, and whether an HTTP
request was performed. -/
structure WikiResult where
  result : String
  cache : List (String × String)
  requested : Bool
deriving DecidableEq

/-- `get_wikimedia_summary` from src/main.py, with the cache passed as explicit
state and the network modelled by a `NetResult` oracle.  The empty string plays
the role of a falsy `title`. -/
def get_wikimedia_summary (title project : String) (cache : List (String × String))
    (net : NetResult) : WikiResult :=
  if title = "" then { result := "No relevant article found.", cache := cache, requested := false }
  else
    match cache.lookup (project ++ "_" ++ title) with
    | some cached => { result := cached, cache := cache, requested := false }
    | none =>
      match net with
      | NetResult.err e =>
          { result := "Network error retrieving information: " ++ e,
            cache := cache, requested := true }
      | NetResult.page pid ext =>
          match ext with
          | some s =>
              if pid ≠ "-1" ∧ s ≠ "" then
                { result := cleanSummary s,
                  cache := (project ++ "_" ++ title, cleanSummary s) :: cache, requested := true }
              else { result := "Information not available.", cache := cache, requested := true }
          | none => { result := "Information not available.", cache := cache, requested := true }

/-! ### The Add Vehicle form handler -/

/-- The widget values of the Add Vehicle form at submission time. -/
structure FormInput where
  vtype : String
  brand : String
  model : String
  year : ℤ
  purchase_date : ℤ
  price : ℤ
  current_km : ℤ
  usage : String

/-- The `new_vehicle` dict built in the `if submitted:` branch: note
`'initial_km': current_km`, and no `last_service_*` keys. -/
def newVehicleOfForm (f : FormInput) : Vehicle :=
  { vtype := f.vtype, brand := f.brand, model := f.model, year := f.year,
    purchase_date := f.purchase_date, price := f.price, current_km := f.current_km,
    initial_km := some f.current_km, usage := f.usage,
    last_service_km := fun _ => none, last_service_date := fun _ => none }

/-- `st.session_state.vehicles.append(new_vehicle)`. -/
def add_vehicle_submit (vehicles : List Vehicle) (f : FormInput) : List Vehicle :=
  vehicles ++ [newVehicleOfForm f]

/-! ### Helper lemmas -/

lemma reasonTimeEq : String.intercalate " & " ["Time Interval"] = "Time Interval" := rfl

lemma reasonKmEq : String.intercalate " & " ["Kilometer Reading"] = "Kilometer Reading" := rfl

lemma reasonBothEq :
    String.intercalate " & " ["Time Interval", "Kilometer Reading"] =
      "Time Interval & Kilometer Reading" := rfl

lemma serviceEntry_service {d : ℤ} {v : Vehicle} {p : String × ServiceInfo} {e : ServiceDue}
    (h : serviceEntry d v p = some e) : e.service = p.1 := by
  unfold serviceEntry at h
  split at h
  · cases h; rfl
  · cases h

lemma serviceEntry_isSome (d : ℤ) (v : Vehicle) (p : String × ServiceInfo) :
    (serviceEntry d v p).isSome = (time_due d v p.1 p.2 || km_due v p.1 p.2) := by
  unfold serviceEntry
  split <;> simp_all

/-- Membership of a service name in the filter-mapped schedule, assuming the
schedule's service names are distinct. -/
lemma exists_service_in_filterMap (d : ℤ) (v : Vehicle) (l : List (String × ServiceInfo))
    (hnd : (l.map Prod.fst).Nodup) (name : String) (info : ServiceInfo)
    (hmem : (name, info) ∈ l) :
    (∃ e ∈ l.filterMap (serviceEntry d v), e.service = name) ↔
      (time_due d v name info || km_due v name info) = true := by
  induction l with
  | nil => cases hmem
  | cons hd tl ih =>
    rw [List.map_cons, List.nodup_cons] at hnd
    rw [List.filterMap_cons]
    rcases List.mem_cons.mp hmem with heq | htl
    · cases heq
      by_cases hc : (time_due d v name info || km_due v name info) = true
      · have hs : (serviceEntry d v (name, info)).isSome = true := by
          rw [serviceEntry_isSome]; exact hc
        obtain ⟨e, he⟩ := Option.isSome_iff_exists.mp hs
        simp only [he]
        simp only [hc, iff_true]
        exact ⟨e, List.mem_cons_self _ _, serviceEntry_service he⟩
      · have hsnone : serviceEntry d v (name, info) = none := by
          have h2 := serviceEntry_isSome d v (name, info)
          rw [Bool.eq_false_iff.mpr hc] at h2
          exact Option.not_isSome_iff_eq_none.mp (by simp [h2])
        simp only [hsnone]
        constructor
        · rintro ⟨e, hemem, hename⟩
          obtain ⟨q, hqmem, hqe⟩ := List.mem_filterMap.mp hemem
          have hq1 : q.1 = name := by rw [← serviceEntry_service hqe, hename]
          have hmm : q.1 ∈ List.map Prod.fst tl := List.mem_map_of_mem Prod.fst hqmem
          rw [hq1] at hmm
          exact absurd hmm hnd.1
        · intro h
          exact absurd h hc
    · have hne : hd.1 ≠ name := by
        intro h
        exact hnd.1 (h ▸ List.mem_map_of_mem Prod.fst htl)
      have ihspec := ih hnd.2 htl
      cases hse : serviceEntry d v hd with
      | none =>
        simp only [hse]
        exact ihspec
      | some e0 =>
        simp only [hse]
        rw [← ihspec]
        constructor
        · rintro ⟨e, hemem, hename⟩
          rcases List.mem_cons.mp hemem with rfl | h2
          · exact absurd ((serviceEntry_service hse).symm.trans hename) hne
          · exact ⟨e, h2, hename⟩
        · rintro ⟨e, hemem, hename⟩
          exact ⟨e, List.mem_cons_of_mem _ hemem, hename⟩

lemma schedule_keys_nodup {t : String} {sched : List (String × ServiceInfo)}
    (h : SERVICE_SCHEDULES t = some sched) : (sched.map Prod.fst).Nodup := by
  unfold SERVICE_SCHEDULES at h
  split at h <;> (try cases h) <;> decide

lemma schedule_interval_bounds {t : String} {sched : List (String × ServiceInfo)}
    (h : SERVICE_SCHEDULES t = some sched) :
    ∀ q ∈ sched, 3 ≤ q.2.interval_months ∧ 3000 ≤ q.2.interval_km := by
  unfold SERVICE_SCHEDULES at h
  split at h <;> (try cases h) <;> decide

lemma pyint_pos {q : ℚ} (h : 1 ≤ q) : 0 < pyint q := by
  unfold pyint
  rw [if_pos (le_trans zero_le_one h)]
  have h2 : (1 : ℤ) ≤ ⌊q⌋ := Int.le_floor.mpr (by exact_mod_cast h)
  omega

lemma pyint_intCast (n : ℤ) : pyint (n : ℚ) = n := by
  unfold pyint
  split <;> simp

/-- A concrete vehicle record used to instantiate theorems with hypotheses. -/
def sampleCar : Vehicle :=
  { vtype := "Car", brand := "Tata", model := "Nexon", year := 2022, purchase_date := 0,
    price := 1000000, current_km := 0, initial_km := some 0, usage := "Mixed",
    last_service_km := fun _ => none, last_service_date := fun _ => none }

/-- `sampleCar` after driving 20000 km (kilometer-due but not time-due at day 10). -/
def sampleCarKm : Vehicle :=
  { sampleCar with current_km := 20000 }

/-- A vehicle whose type is not a key of `SERVICE_SCHEDULES`. -/
def truckVehicle : Vehicle :=
  { sampleCar with vtype := "Truck" }

/-- `sampleCar` with the `'City'` usage pattern. -/
def sampleCity : Vehicle :=
  { sampleCar with usage := "City" }

/-- `sampleCar` with a usage pattern that is not a key of `USAGE_MULTIPLIERS`. -/
def sampleRural : Vehicle :=
  { sampleCar with usage := "Rural" }

lemma mem_ite_list {c : Prop} [Decidable c] {l1 l2 : List String} {a : String} :
    (a ∈ if c then l1 else l2) ↔ (c ∧ a ∈ l1) ∨ (¬c ∧ a ∈ l2) := by
  split <;> simp_all

/-! ### Claim theorems -/

/-- C1: for a vehicle whose type is a key of `SERVICE_SCHEDULES` and a service
in that type's schedule, `calculate_service_due` includes the service in its
result exactly when the months elapsed since the last service date (days
divided by 30.44) reach the usage-adjusted month interval, or the kilometers
since the last recorded service reading reach the usage-adjusted kilometer
interval, each check guarded by positivity of its adjusted interval. -/
theorem mem_calculate_service_due_iff_due (d : ℤ) (v : Vehicle)
    (sched : List (String × ServiceInfo)) (hs : SERVICE_SCHEDULES v.vtype = some sched)
    (name : String) (info : ServiceInfo) (hmem : (name, info) ∈ sched) :
    (∃ e ∈ calculate_service_due d v, e.service = name) ↔
      ((0 < adjusted_interval_months v.usage info ∧
          (adjusted_interval_months v.usage info : ℚ) ≤
            ((d - last_service_date_of v name : ℤ) : ℚ) / (3044 / 100)) ∨
       (0 < adjusted_interval_km v.usage info ∧
          adjusted_interval_km v.usage info ≤ v.current_km - last_service_km_of v name)) := by
  have hnd := schedule_keys_nodup hs
  have hcalc : calculate_service_due d v = sched.filterMap (serviceEntry d v) := by
    unfold calculate_service_due
    rw [hs]
  rw [hcalc, exists_service_in_filterMap d v sched hnd name info hmem]
  simp [time_due, km_due, MONTH_DAYS]

theorem mem_calculate_service_due_iff_due_witness :
    (∃ e ∈ calculate_service_due 200 sampleCar, e.service = "General Service") ↔
      ((0 < adjusted_interval_months sampleCar.usage ⟨6, 10000, 2500, 5000⟩ ∧
          (adjusted_interval_months sampleCar.usage ⟨6, 10000, 2500, 5000⟩ : ℚ) ≤
            ((200 - last_service_date_of sampleCar "General Service" : ℤ) : ℚ) / (3044 / 100)) ∨
       (0 < adjusted_interval_km sampleCar.usage ⟨6, 10000, 2500, 5000⟩ ∧
          adjusted_interval_km sampleCar.usage ⟨6, 10000, 2500, 5000⟩ ≤
            sampleCar.current_km - last_service_km_of sampleCar "General Service")) :=
  mem_calculate_service_due_iff_due 200 sampleCar carSchedule rfl "General Service"
    ⟨6, 10000, 2500, 5000⟩ (by decide)

/-- C5: `get_recommended_parts` and `calculate_service_due` are deterministic:
on equal inputs (vehicle record; for `calculate_service_due` also the current
date) they return equal outputs, with no other state in their signatures. -/
theorem rule_evaluators_deterministic (v₁ v₂ : Vehicle) (d₁ d₂ : ℤ)
    (hv : v₁ = v₂) (hd : d₁ = d₂) :
    get_recommended_parts v₁ = get_recommended_parts v₂ ∧
    calculate_service_due d₁ v₁ = calculate_service_due d₂ v₂ := by
  subst hv hd
  exact ⟨rfl, rfl⟩

theorem rule_evaluators_deterministic_witness :
    get_recommended_parts sampleCar = get_recommended_parts sampleCar ∧
    calculate_service_due 200 sampleCar = calculate_service_due 200 sampleCar :=
  rule_evaluators_deterministic sampleCar sampleCar 200 200 rfl rfl

/-- C7: submitting the Add Vehicle form appends exactly one record, built from
the form values with `initial_km` equal to the entered current kilometers, and
leaves every previously stored record unchanged. -/
theorem add_vehicle_form_appends_one (vehicles : List Vehicle) (f : FormInput) :
    (add_vehicle_submit vehicles f).length = vehicles.length + 1 ∧
    (add_vehicle_submit vehicles f).take vehicles.length = vehicles ∧
    (add_vehicle_submit vehicles f).drop vehicles.length = [newVehicleOfForm f] ∧
    (newVehicleOfForm f).initial_km = some f.current_km := by
  refine ⟨?_, List.take_left _ _, List.drop_left _ _, rfl⟩
  simp [add_vehicle_submit]

/-- C8: for a vehicle whose type is not a key of `SERVICE_SCHEDULES`,
`calculate_service_due` returns the empty list (the early return fires before
any schedule entry is read). -/
theorem unknown_type_no_services (d : ℤ) (v : Vehicle)
    (h : SERVICE_SCHEDULES v.vtype = none) : calculate_service_due d v = [] := by
  unfold calculate_service_due
  rw [h]

theorem unknown_type_no_services_witness :
    calculate_service_due 500 truckVehicle = [] :=
  unknown_type_no_services 500 truckVehicle rfl

/-- C10: every entry produced by `calculate_service_due` has a non-negative
`days_overdue`, and an entry produced while the time-interval condition is
false (kilometer-only due) has `days_overdue = 0`. -/
theorem days_overdue_nonneg (d : ℤ) (v : Vehicle) :
    (∀ e ∈ calculate_service_due d v, 0 ≤ e.days_overdue) ∧
    (∀ p e, serviceEntry d v p = some e → time_due d v p.1 p.2 = false →
        e.days_overdue = 0) := by
  constructor
  · intro e he
    unfold calculate_service_due at he
    cases hs : SERVICE_SCHEDULES v.vtype with
    | none => rw [hs] at he; cases he
    | some sched =>
      rw [hs] at he
      obtain ⟨p, _, hpe⟩ := List.mem_filterMap.mp he
      unfold serviceEntry at hpe
      split at hpe
      · cases hpe; exact le_max_left _ _
      · cases hpe
  · intro p e hpe htd
    unfold serviceEntry at hpe
    rw [htd] at hpe
    split at hpe
    · cases hpe
      norm_num [pyint]
    · cases hpe

theorem days_overdue_nonneg_witness :
    0 ≤ (⟨"General Service", "Time Interval", 18, 2500, 5000,
          ["Engine Oil", "Oil Filter", "Air Filter", "Coolant", "Wiper Fluid"]⟩ :
            ServiceDue).days_overdue ∧
    (⟨"General Service", "Kilometer Reading", 0, 2500, 5000,
          ["Engine Oil", "Oil Filter", "Air Filter", "Coolant", "Wiper Fluid"]⟩ :
            ServiceDue).days_overdue = 0 := by
  constructor
  · refine (days_overdue_nonneg 200 sampleCar).1 _ ?_
    have hcalc : calculate_service_due 200 sampleCar =
        [⟨"General Service", "Time Interval", 18, 2500, 5000,
          ["Engine Oil", "Oil Filter", "Air Filter", "Coolant", "Wiper Fluid"]⟩] := by
      norm_num [calculate_service_due, SERVICE_SCHEDULES, carSchedule, serviceEntry, time_due,
        km_due, adjusted_interval_months, adjusted_interval_km, effectiveMultiplier,
        USAGE_MULTIPLIERS, last_service_km_of, last_service_date_of, pyint, MONTH_DAYS,
        partsFor, SERVICE_PARTS, List.filterMap, sampleCar, reasonTimeEq, reasonKmEq,
        reasonBothEq]
    rw [hcalc]
    exact List.mem_cons_self _ _
  · refine (days_overdue_nonneg 10 sampleCarKm).2 ("General Service", ⟨6, 10000, 2500, 5000⟩)
      _ ?_ ?_
    · norm_num [serviceEntry, time_due, km_due, adjusted_interval_months, adjusted_interval_km,
        effectiveMultiplier, USAGE_MULTIPLIERS, last_service_km_of, last_service_date_of,
        pyint, MONTH_DAYS, partsFor, SERVICE_PARTS, sampleCarKm, sampleCar, reasonTimeEq,
        reasonKmEq, reasonBothEq]
    · norm_num [time_due, adjusted_interval_months, effectiveMultiplier, USAGE_MULTIPLIERS,
        last_service_date_of, pyint, MONTH_DAYS, sampleCarKm, sampleCar]

/-- C2: `calculate_service_due` adjusts intervals by the usage pattern: the
adjusted month interval is `interval_months` divided by the usage's
`service_frequency` truncated to an integer, the adjusted kilometer interval
is `interval_km` divided by `parts_wear` truncated to an integer; an unknown
usage is treated as `'Mixed'` (both multipliers 1.0), leaving intervals
unchanged and producing the same output as usage `'Mixed'`. -/
theorem usage_adjustment_spec :
    (∀ u m info, USAGE_MULTIPLIERS u = some m →
        adjusted_interval_months u info =
          pyint ((info.interval_months : ℚ) / m.service_frequency) ∧
        adjusted_interval_km u info = pyint ((info.interval_km : ℚ) / m.parts_wear)) ∧
    (∀ u info, USAGE_MULTIPLIERS u = none →
        effectiveMultiplier u = { service_frequency := 1, parts_wear := 1 } ∧
        adjusted_interval_months u info = info.interval_months ∧
        adjusted_interval_km u info = info.interval_km) ∧
    (∀ d v, USAGE_MULTIPLIERS v.usage = none →
        calculate_service_due d v = calculate_service_due d { v with usage := "Mixed" }) := by
  refine ⟨?_, ?_, ?_⟩
  · intro u m info hu
    have hm : effectiveMultiplier u = m := by
      unfold effectiveMultiplier
      rw [hu]
      rfl
    constructor
    · unfold adjusted_interval_months
      rw [hm]
    · unfold adjusted_interval_km
      rw [hm]
  · intro u info hu
    have hm : effectiveMultiplier u = { service_frequency := 1, parts_wear := 1 } := by
      unfold effectiveMultiplier
      rw [hu]
      rfl
    refine ⟨hm, ?_, ?_⟩
    · unfold adjusted_interval_months
      rw [hm]
      show pyint ((info.interval_months : ℚ) / 1) = info.interval_months
      rw [div_one, pyint_intCast]
    · unfold adjusted_interval_km
      rw [hm]
      show pyint ((info.interval_km : ℚ) / 1) = info.interval_km
      rw [div_one, pyint_intCast]
  · intro d v hu
    have hserv : serviceEntry d v = serviceEntry d { v with usage := "Mixed" } := by
      funext p
      unfold serviceEntry time_due km_due adjusted_interval_months adjusted_interval_km
        effectiveMultiplier
      rw [hu]
      rfl
    have hvt : ({ v with usage := "Mixed" } : Vehicle).vtype = v.vtype := rfl
    unfold calculate_service_due
    rw [hvt, hserv]

theorem usage_adjustment_spec_witness :
    (adjusted_interval_months "City" ⟨6, 10000, 2500, 5000⟩ =
        pyint (((⟨6, 10000, 2500, 5000⟩ : ServiceInfo).interval_months : ℚ) / (12/10)) ∧
     adjusted_interval_km "City" ⟨6, 10000, 2500, 5000⟩ =
        pyint (((⟨6, 10000, 2500, 5000⟩ : ServiceInfo).interval_km : ℚ) / (11/10))) ∧
    (effectiveMultiplier "Rural" = { service_frequency := 1, parts_wear := 1 } ∧
     adjusted_interval_months "Rural" ⟨6, 10000, 2500, 5000⟩ =
        (⟨6, 10000, 2500, 5000⟩ : ServiceInfo).interval_months ∧
     adjusted_interval_km "Rural" ⟨6, 10000, 2500, 5000⟩ =
        (⟨6, 10000, 2500, 5000⟩ : ServiceInfo).interval_km) ∧
    calculate_service_due 200 sampleRural =
      calculate_service_due 200 { sampleRural with usage := "Mixed" } := by
  refine ⟨usage_adjustment_spec.1 "City" ⟨12/10, 11/10⟩ ⟨6, 10000, 2500, 5000⟩ rfl, ?_, ?_⟩
  · exact usage_adjustment_spec.2.1 "Rural" ⟨6, 10000, 2500, 5000⟩ rfl
  · exact usage_adjustment_spec.2.2 200 sampleRural rfl

set_option maxHeartbeats 2000000 in
/-- C3: `get_recommended_parts` returns exactly the deduplicated union of the
parts selected by its kilometer and usage rules (membership in the returned
list coincides with the spec's selection predicate `specSelected`). -/
theorem recommended_parts_spec (v : Vehicle) (p : String) :
    p ∈ get_recommended_parts v ↔ specSelected v p := by
  unfold get_recommended_parts
  rw [(List.mergeSort_perm ((rawRecommendedParts v).dedup) _).mem_iff, List.mem_dedup]
  unfold rawRecommendedParts specSelected
  by_cases hCity : v.usage = "City" <;>
  by_cases hComm : v.usage = "Commercial" <;>
  by_cases hCar : v.vtype = "Car" <;>
  by_cases hBike : v.vtype = "Bike" <;>
  by_cases hScoot : v.vtype = "Scooter" <;>
    simp_all [List.mem_append, mem_ite_list] <;> tauto

/-- C4: for every schedule entry and every usage pattern that is a key of
`USAGE_MULTIPLIERS`, both usage-adjusted intervals are strictly positive, so
the positivity guards in `calculate_service_due` never suppress the time-due
or kilometer-due checks: each check reduces to its comparison alone. -/
theorem adjusted_intervals_pos (t : String) (sched : List (String × ServiceInfo))
    (hs : SERVICE_SCHEDULES t = some sched) (name : String) (info : ServiceInfo)
    (hmem : (name, info) ∈ sched) (u : String) (m : Multiplier)
    (hu : USAGE_MULTIPLIERS u = some m) :
    (0 < adjusted_interval_months u info ∧ 0 < adjusted_interval_km u info) ∧
    (∀ d v, v.usage = u →
      time_due d v name info =
        decide ((adjusted_interval_months u info : ℚ) ≤
          ((d - last_service_date_of v name : ℤ) : ℚ) / MONTH_DAYS) ∧
      km_due v name info =
        decide (adjusted_interval_km u info ≤ v.current_km - last_service_km_of v name)) := by
  have hm : effectiveMultiplier u = m := by
    unfold effectiveMultiplier
    rw [hu]
    rfl
  have hbounds := schedule_interval_bounds hs (name, info) hmem
  have hmb : 0 < m.service_frequency ∧ m.service_frequency ≤ 3/2 ∧
      0 < m.parts_wear ∧ m.parts_wear ≤ 3/2 := by
    unfold USAGE_MULTIPLIERS at hu
    split at hu <;> (try cases hu) <;> norm_num
  have him : (3 : ℚ) ≤ (info.interval_months : ℚ) := by exact_mod_cast hbounds.1
  have hik : (3000 : ℚ) ≤ (info.interval_km : ℚ) := by exact_mod_cast hbounds.2
  have hq1 : (1 : ℚ) ≤ (info.interval_months : ℚ) / m.service_frequency := by
    rw [le_div_iff₀ hmb.1, one_mul]
    calc m.service_frequency ≤ 3/2 := hmb.2.1
      _ ≤ 3 := by norm_num
      _ ≤ _ := him
  have hq2 : (1 : ℚ) ≤ (info.interval_km : ℚ) / m.parts_wear := by
    rw [le_div_iff₀ hmb.2.2.1, one_mul]
    calc m.parts_wear ≤ 3/2 := hmb.2.2.2
      _ ≤ 3000 := by norm_num
      _ ≤ _ := hik
  have hpos1 : 0 < adjusted_interval_months u info := by
    unfold adjusted_interval_months
    rw [hm]
    exact pyint_pos hq1
  have hpos2 : 0 < adjusted_interval_km u info := by
    unfold adjusted_interval_km
    rw [hm]
    exact pyint_pos hq2
  refine ⟨⟨hpos1, hpos2⟩, ?_⟩
  intro d v hv
  constructor
  · unfold time_due
    rw [hv]
    simp [hpos1]
  · unfold km_due
    rw [hv]
    simp [hpos2]

theorem adjusted_intervals_pos_witness :
    (0 < adjusted_interval_months "City" ⟨6, 10000, 2500, 5000⟩ ∧
     0 < adjusted_interval_km "City" ⟨6, 10000, 2500, 5000⟩) ∧
    (time_due 200 sampleCity "General Service" ⟨6, 10000, 2500, 5000⟩ =
        decide ((adjusted_interval_months "City" ⟨6, 10000, 2500, 5000⟩ : ℚ) ≤
          ((200 - last_service_date_of sampleCity "General Service" : ℤ) : ℚ) / MONTH_DAYS) ∧
     km_due sampleCity "General Service" ⟨6, 10000, 2500, 5000⟩ =
        decide (adjusted_interval_km "City" ⟨6, 10000, 2500, 5000⟩ ≤
          sampleCity.current_km - last_service_km_of sampleCity "General Service")) := by
  have h := adjusted_intervals_pos "Car" carSchedule rfl "General Service"
    ⟨6, 10000, 2500, 5000⟩ (by decide) "City" ⟨12/10, 11/10⟩ rfl
  exact ⟨h.1, h.2 200 sampleCity rfl⟩

/-- C6: `parts_cache` is a pure memo: with a non-empty title, a cache hit on
the key built from project and title returns the stored summary without a
network request and without modifying the cache; on a miss with a non-empty
extract the cleaned summary is stored under that key; and no call removes or
overwrites an existing entry. -/
theorem parts_cache_memo (title project : String) (cache : List (String × String))
    (net : NetResult) (ht : title ≠ "") :
    (∀ s, cache.lookup (project ++ "_" ++ title) = some s →
        get_wikimedia_summary title project cache net =
          { result := s, cache := cache, requested := false }) ∧
    (∀ pid e, cache.lookup (project ++ "_" ++ title) = none →
        net = NetResult.page pid (some e) → pid ≠ "-1" → e ≠ "" →
        (get_wikimedia_summary title project cache net).cache =
          (project ++ "_" ++ title, cleanSummary e) :: cache) ∧
    (∀ k s, cache.lookup k = some s →
        (get_wikimedia_summary title project cache net).cache.lookup k = some s) := by
  refine ⟨?_, ?_, ?_⟩
  · intro s hsome
    unfold get_wikimedia_summary
    rw [if_neg ht]
    simp only [hsome]
  · intro pid e hnone hnet hpid he
    subst hnet
    unfold get_wikimedia_summary
    rw [if_neg ht]
    simp only [hnone]
    rw [if_pos ⟨hpid, he⟩]
  · intro k s hks
    unfold get_wikimedia_summary
    rw [if_neg ht]
    cases hl : cache.lookup (project ++ "_" ++ title) with
    | some c => simp only [hl]; exact hks
    | none =>
      simp only [hl]
      cases net with
      | err msg => exact hks
      | page pid ext =>
        cases ext with
        | none => exact hks
        | some s2 =>
          dsimp only
          by_cases hcond : pid ≠ "-1" ∧ s2 ≠ ""
          · rw [if_pos hcond]
            have hkne : (k == project ++ "_" ++ title) = false := by
              rw [beq_eq_false_iff_ne]
              intro hk
              rw [hk] at hks
              rw [hks] at hl
              cases hl
            simp only [List.lookup, hkne]
            exact hks
          · rw [if_neg hcond]
            exact hks

theorem parts_cache_memo_witness :
    (get_wikimedia_summary "Brake pad" "wikipedia"
        [("wikipedia_Brake pad", "cached text")] (NetResult.err "down") =
      { result := "cached text", cache := [("wikipedia_Brake pad", "cached text")],
        requested := false }) ∧
    ((get_wikimedia_summary "Brake pad" "wikipedia" []
        (NetResult.page "123" (some "A brake pad.\n\nMore."))).cache =
      [("wikipedia_Brake pad", cleanSummary "A brake pad.\n\nMore.")]) ∧
    ((get_wikimedia_summary "Brake pad" "wikipedia"
        [("wikipedia_Brake pad", "cached text")] (NetResult.err "down")).cache.lookup
        "wikipedia_Brake pad" = some "cached text") := by
  have h1 := parts_cache_memo "Brake pad" "wikipedia"
      [("wikipedia_Brake pad", "cached text")] (NetResult.err "down") (by decide)
  have h2 := parts_cache_memo "Brake pad" "wikipedia" []
      (NetResult.page "123" (some "A brake pad.\n\nMore.")) (by decide)
  refine ⟨h1.1 "cached text" rfl, ?_, h1.2.2 "wikipedia_Brake pad" "cached text" rfl⟩
  exact h2.2.1 "123" "A brake pad.\n\nMore." rfl rfl (by decide) (by decide)

/-- C9: the list returned by `get_recommended_parts` is strictly sorted in
ascending lexicographic order and contains no duplicates. -/
theorem recommended_parts_sorted_nodup (v : Vehicle) :
    List.Sorted (· < ·) (get_recommended_parts v) ∧ (get_recommended_parts v).Nodup := by
  have hperm := List.mergeSort_perm ((rawRecommendedParts v).dedup)
      (fun a b : String => decide (a ≤ b))
  have hnd : (get_recommended_parts v).Nodup := by
    unfold get_recommended_parts
    exact hperm.nodup_iff.mpr (List.nodup_dedup _)
  have htrans : ∀ a b c : String, (decide (a ≤ b)) = true → (decide (b ≤ c)) = true →
      (decide (a ≤ c)) = true := by
    intro a b c h1 h2
    simp only [decide_eq_true_eq] at h1 h2 ⊢
    exact le_trans h1 h2
  have htotal : ∀ a b : String, ((decide (a ≤ b)) || (decide (b ≤ a))) = true := by
    intro a b
    simp only [Bool.or_eq_true, decide_eq_true_eq]
    exact le_total a b
  have hs := List.sorted_mergeSort htrans htotal ((rawRecommendedParts v).dedup)
  have hle : List.Pairwise (fun a b : String => a ≤ b) (get_recommended_parts v) := by
    unfold get_recommended_parts
    exact hs.imp (fun h => of_decide_eq_true h)
  refine ⟨?_, hnd⟩
  have hpw := List.Pairwise.and hle hnd
  exact hpw.imp (fun h => lt_of_le_of_ne h.1 h.2)

end GearUp
